import Mathlib

set_option autoImplicit false

/-
Shallow embedding of the SANE network-protocol codec from the rust-sane
repository (crate root src/sane/sane.rs, wire codec src/sane/net.rs,
src/sane/net/io.rs and src/sane/net/rpc_XX_*.rs, capability bitset
src/sane/util.rs).

Modelling conventions:
- A byte is a Nat (well-formed streams hold values < 256); a byte stream is a
  List Nat read from the front.
- A 32-bit word is a Nat; the u32 invariant (< 2^32) is carried as an explicit
  hypothesis where a theorem needs it, and casts "as u32" are written with an
  explicit % 4294967296.
- Rust CString and CStr values are modelled by their content bytes WITHOUT the
  terminating NUL (the content never holds an interior zero byte; that
  invariant of the Rust type appears as a hypothesis where needed).
- Fallible decoding returns DecResult: ok (value and remaining stream), err
  (a DecodeErrorKind), or panic for a failed Rust assert.
- Encoding is generic over an arbitrary byte sink (the io::Write trait):
  a Sink is a state type with a writeAll function that may fail with an
  IO-level error; EncResult mirrors Result<(), EncodeError> plus panic.
- Allocation failures (TryReserveError) are not modelled: allocation is
  assumed to succeed, which is sound for every claim treated here.
-/

namespace SaneNet

/-- Big-endian byte quadruple of a 32-bit word, as in u32::to_be_bytes.
For inputs at or above 2^32 this agrees with the bytes of the value mod 2^32,
matching the behavior of a Rust "as u32" cast feeding to_be_bytes. -/
def u32ToBytes (w : Nat) : List Nat :=
  [w / 16777216 % 256, w / 65536 % 256, w / 256 % 256, w % 256]

/-- Reassembly of a 32-bit word from four big-endian bytes, as in
u32::from_be_bytes. -/
def bytesToU32 (b0 b1 b2 b3 : Nat) : Nat :=
  ((b0 * 256 + b1) * 256 + b2) * 256 + b3

/-- DecodeErrorKind from src/sane/net/io.rs. The IoError payload is reduced
to a single constructor: with a list-backed reader the only IO failure is an
unexpected end of stream. -/
inductive DecodeErrorKind where
  | sizeOverflow (w : Nat)
  | tryReserveError (len : Nat)
  | invalidString
  | invalidOptionType
  | invalidBool (w : Nat)
  | invalidValueType (v : Nat)
  | invalidConstraint (v c : Nat)
  | nullPtr
  | ioError
  deriving DecidableEq, Repr

/-- Result of running a decoder on a byte stream: the decoded value plus the
unread remainder, a decode error, or a Rust panic (failed assert). -/
inductive DecResult (α : Type) where
  | ok (value : α) (rest : List Nat)
  | err (e : DecodeErrorKind)
  | panic
  deriving DecidableEq, Repr

/-- Sequencing of decoders, mirroring the question-mark operator. -/
def DecResult.bind {α β : Type} (r : DecResult α)
    (f : α → List Nat → DecResult β) : DecResult β :=
  match r with
  | .ok v rest => f v rest
  | .err e => .err e
  | .panic => .panic

/-- Word::decode from src/sane/net/io.rs: read exactly 4 bytes, assemble them
big-endian. A short stream is an IO error (read_exact fails). -/
def decodeWord (s : List Nat) : DecResult Nat :=
  match s with
  | b0 :: b1 :: b2 :: b3 :: rest => .ok (bytesToU32 b0 b1 b2 b3) rest
  | _ => .err .ioError

/-- Bool::decode from src/sane/net/io.rs: word 0 is FALSE, 1 is TRUE,
anything else is InvalidBool. -/
def decodeBool (s : List Nat) : DecResult Bool :=
  (decodeWord s).bind fun w rest =>
    if w = 0 then .ok false rest
    else if w = 1 then .ok true rest
    else .err (.invalidBool w)

/-- Value of usize::MAX on the 64-bit target modelled here. -/
def usizeMax : Nat := 18446744073709551615

/-- Reader::read_size from src/sane/net/io.rs: decode a Word and convert to
usize; on a 64-bit target the conversion never fails. -/
def readSize (s : List Nat) : DecResult Nat :=
  (decodeWord s).bind fun w rest =>
    if w ≤ usizeMax then .ok w rest else .err (.sizeOverflow w)

/-- Reader::read_vec from src/sane/net/io.rs: read exactly len bytes
(allocation is modelled as always succeeding). -/
def readVec (len : Nat) (s : List Nat) : DecResult (List Nat) :=
  if len = 0 then .ok [] s
  else if len ≤ s.length then .ok (s.take len) (s.drop len)
  else .err .ioError

/-- Index of the first zero byte, as in bytes.iter().position of b == 0. -/
def positionOfNul : List Nat → Option Nat
  | [] => none
  | b :: rest =>
    if b = 0 then some 0
    else (positionOfNul rest).map (fun i => i + 1)

/-- cstring_from_vec_until_nul from src/sane/net/io.rs. The Rust function
keeps the bytes up to and including the first NUL; with CStrings modelled as
their content this is the prefix strictly before the first zero byte. -/
def cstringFromVecUntilNul (bytes : List Nat) : Option (List Nat) :=
  match positionOfNul bytes with
  | none => none
  | some nulIdx => some (bytes.take nulIdx)

/-- Decode for Option of CString from src/sane/net/io.rs: a zero length word
is NULL; otherwise the payload must contain a NUL and is truncated at the
first NUL, a missing NUL is InvalidString. -/
def decodeOptionCString (s : List Nat) : DecResult (Option (List Nat)) :=
  (readSize s).bind fun bytesLen rest =>
    if bytesLen = 0 then .ok none rest
    else (readVec bytesLen rest).bind fun bytes rest2 =>
      match cstringFromVecUntilNul bytes with
      | some c => .ok (some c) rest2
      | none => .err .invalidString

/-- Decode for CString from src/sane/net/io.rs: a NULL wire string decodes as
the empty C string. -/
def decodeCString (s : List Nat) : DecResult (List Nat) :=
  (decodeOptionCString s).bind fun c rest =>
    match c with
    | some c => .ok c rest
    | none => .ok [] rest

/-- An arbitrary byte sink: the io::Write trait. The state type sigma is the
sink, epsilon its associated error type; writeAll is write_all. -/
structure Sink (σ ε : Type) where
  writeAll : σ → List Nat → Except ε σ

/-- EncodeErrorKind from src/sane/net/io.rs. -/
inductive EncodeErrorKind (ε : Type) where
  | sizeOverflow (size : Nat)
  | invalidOptionType
  | ioError (e : ε)
  deriving DecidableEq, Repr

/-- Result of running an encoder against a sink: the updated sink state, an
encode error, or a Rust panic (failed assert). -/
inductive EncResult (ε σ : Type) where
  | ok (s : σ)
  | err (e : EncodeErrorKind ε)
  | panic
  deriving DecidableEq, Repr

/-- Sequencing of encoders, mirroring the question-mark operator. -/
def EncResult.bind {ε σ : Type} (r : EncResult ε σ)
    (f : σ → EncResult ε σ) : EncResult ε σ :=
  match r with
  | .ok s => f s
  | .err e => .err e
  | .panic => .panic

/-- Writer::write_bytes from src/sane/net/io.rs: write_all with the IO error
wrapped as EncodeErrorKind::IoError. -/
def writeBytes {σ ε : Type} (sink : Sink σ ε) (st : σ) (bs : List Nat) :
    EncResult ε σ :=
  match sink.writeAll st bs with
  | .ok st2 => .ok st2
  | .error e => .err (.ioError e)

/-- Word::encode from src/sane/net/io.rs: write the four big-endian bytes. -/
def writeWord {σ ε : Type} (sink : Sink σ ε) (st : σ) (w : Nat) :
    EncResult ε σ :=
  writeBytes sink st (u32ToBytes w)

/-- Writer::write_size from src/sane/net/io.rs: sizes at or above 2^32 are
rejected with SizeOverflow (u32::try_from fails). -/
def writeSize {σ ε : Type} (sink : Sink σ ε) (st : σ) (size : Nat) :
    EncResult ε σ :=
  if size < 4294967296 then writeWord sink st size
  else .err (.sizeOverflow size)

/-- CStr::encode from src/sane/net/io.rs: write_size of the byte length
including the NUL, then the bytes including the NUL. -/
def encodeCStr {σ ε : Type} (sink : Sink σ ε) (st : σ) (c : List Nat) :
    EncResult ε σ :=
  (writeSize sink st (c.length + 1)).bind fun st2 =>
    writeBytes sink st2 (c ++ [0])

/-- The pure list sink used for byte-exactness theorems: writing appends to
an accumulator and never fails. -/
def listSink : Sink (List Nat) Unit :=
  ⟨fun s bs => .ok (s ++ bs)⟩

/-- SANE_TYPE_BOOL from src/sane/sane.rs. -/
def TYPE_BOOL : Nat := 0

/-- SANE_TYPE_INT from src/sane/sane.rs. -/
def TYPE_INT : Nat := 1

/-- SANE_TYPE_FIXED from src/sane/sane.rs. -/
def TYPE_FIXED : Nat := 2

/-- SANE_TYPE_STRING from src/sane/sane.rs. -/
def TYPE_STRING : Nat := 3

/-- SANE_TYPE_BUTTON from src/sane/sane.rs. -/
def TYPE_BUTTON : Nat := 4

/-- SANE_TYPE_GROUP from src/sane/sane.rs. -/
def TYPE_GROUP : Nat := 5

/-- SANE_CONSTRAINT_NONE from src/sane/sane.rs. -/
def CONSTRAINT_NONE : Nat := 0

/-- SANE_CONSTRAINT_STRING_LIST from src/sane/sane.rs. -/
def CONSTRAINT_STRING_LIST : Nat := 3

/-- SANE_ACTION_GET_VALUE from src/sane/sane.rs. -/
def ACTION_GET_VALUE : Nat := 0

/-- SANE_ACTION_SET_VALUE from src/sane/sane.rs. -/
def ACTION_SET_VALUE : Nat := 1

/-- SANE_ACTION_SET_AUTO from src/sane/sane.rs. -/
def ACTION_SET_AUTO : Nat := 2

/-- SANE_NET_INIT from src/sane/net.rs. -/
def PROC_INIT : Nat := 0

/-- SANE_NET_CONTROL_OPTION from src/sane/net.rs. -/
def PROC_CONTROL_OPTION : Nat := 5

/-- VERSION_CODE from src/sane/net.rs. -/
def VERSION_CODE : Nat := 0x01010003

/-- OptionValueBuf from src/sane/net/rpc_05_control_option.rs: an option
value is a value-type tag plus raw big-endian bytes. The borrowed view
OptionValue carries the same two observable fields, so this structure stands
for both presentations. -/
structure OptionValueBuf where
  value_type : Nat
  bytes : List Nat
  deriving DecidableEq, Repr

/-- OptionValueBuf::from_bool: a BOOL value holding one Bool word. -/
def OptionValueBuf.from_bool (b : Bool) : OptionValueBuf :=
  ⟨TYPE_BOOL, u32ToBytes (if b then 1 else 0)⟩

/-- OptionValueBuf::from_i32, with the i32 given as its u32 bit pattern. -/
def OptionValueBuf.from_i32 (w : Nat) : OptionValueBuf :=
  ⟨TYPE_INT, u32ToBytes w⟩

/-- OptionValueBuf::from_i32_list, elements given as u32 bit patterns. -/
def OptionValueBuf.from_i32_list (ws : List Nat) : OptionValueBuf :=
  ⟨TYPE_INT, ws.flatMap u32ToBytes⟩

/-- OptionValueBuf::from_fixed, with the Fixed given as its word value. -/
def OptionValueBuf.from_fixed (w : Nat) : OptionValueBuf :=
  ⟨TYPE_FIXED, u32ToBytes w⟩

/-- OptionValueBuf::from_fixed_list, elements given as word values. -/
def OptionValueBuf.from_fixed_list (ws : List Nat) : OptionValueBuf :=
  ⟨TYPE_FIXED, ws.flatMap u32ToBytes⟩

/-- OptionValueBuf::from_cstring: the bytes are the content plus the NUL. -/
def OptionValueBuf.from_cstring (c : List Nat) : OptionValueBuf :=
  ⟨TYPE_STRING, c ++ [0]⟩

/-- OptionValueBuf::from_cstring_with_size: zero-pads the NUL-terminated
bytes up to size. The Rust assert that size covers the bytes is modelled by
returning none (the function panics) when it fails. -/
def OptionValueBuf.from_cstring_with_size (c : List Nat) (size : Nat) :
    Option OptionValueBuf :=
  if c.length + 1 ≤ size then
    some ⟨TYPE_STRING, (c ++ [0]) ++ List.replicate (size - (c.length + 1)) 0⟩
  else none

/-- Common tail of OptionValue::encode from
src/sane/net/rpc_05_control_option.rs: write the value type word, the
optional size word, the optional count word, then the bytes when nonempty. -/
def OptionValueBuf.encodeTail {σ ε : Type} (sink : Sink σ ε)
    (v : OptionValueBuf) (valueSize valueCount : Option Nat) (st : σ) :
    EncResult ε σ :=
  (writeWord sink st v.value_type).bind fun st1 =>
  (match valueSize with
   | some n => writeWord sink st1 n
   | none => .ok st1).bind fun st2 =>
  (match valueCount with
   | some n => writeWord sink st2 n
   | none => .ok st2).bind fun st3 =>
  if 0 < v.bytes.length then writeBytes sink st3 v.bytes else .ok st3

/-- OptionValue::encode from src/sane/net/rpc_05_control_option.rs
lines 602 to 644. Failed asserts on the byte length are panic; a value type
outside the five supported tags is EncodeErrorKind::InvalidOptionType,
returned before anything is written. -/
def OptionValueBuf.encode {σ ε : Type} (sink : Sink σ ε)
    (v : OptionValueBuf) (st : σ) : EncResult ε σ :=
  if v.value_type = TYPE_BOOL then
    if v.bytes.length = 4 then v.encodeTail sink (some 4) (some 1) st
    else .panic
  else if v.value_type = TYPE_INT ∨ v.value_type = TYPE_FIXED then
    if v.bytes.length % 4 = 0 then
      v.encodeTail sink (some (v.bytes.length % 4294967296))
        (some (v.bytes.length / 4 % 4294967296)) st
    else .panic
  else if v.value_type = TYPE_STRING then
    if 0 < v.bytes.length then
      v.encodeTail sink (some (v.bytes.length % 4294967296)) none st
    else .panic
  else if v.value_type = TYPE_BUTTON then
    v.encodeTail sink none none st
  else .err .invalidOptionType

/-- OptionValueBuf::decode from src/sane/net/rpc_05_control_option.rs
lines 731 to 783. The FIXME asserts on size and count words are modelled as
panic; the multiplication count times 4 is u32 arithmetic, written with a
wrapping cast. -/
def OptionValueBuf.decode (s : List Nat) : DecResult OptionValueBuf :=
  (decodeWord s).bind fun valueType rest =>
  if valueType = TYPE_BOOL then
    (decodeWord rest).bind fun valueSize r1 =>
    (decodeWord r1).bind fun valueCount r2 =>
    if valueSize = 4 ∧ valueCount = 1 then
      (decodeBool r2).bind fun b r3 => .ok (OptionValueBuf.from_bool b) r3
    else .panic
  else if valueType = TYPE_INT ∨ valueType = TYPE_FIXED then
    (decodeWord rest).bind fun valueSize r1 =>
    (decodeWord r1).bind fun valueCount r2 =>
    if valueSize = valueCount * 4 % 4294967296 then
      (readVec valueSize r2).bind fun bytes r3 =>
        .ok ⟨valueType, bytes⟩ r3
    else .panic
  else if valueType = TYPE_STRING then
    (readSize rest).bind fun bytesLen r1 =>
    (readVec bytesLen r1).bind fun bytes r2 =>
    if bytesLen = 0 then .ok ⟨valueType, bytes⟩ r2
    else
      match positionOfNul bytes with
      | none => .err .invalidString
      | some _ => .ok ⟨valueType, bytes⟩ r2
  else if valueType = TYPE_BUTTON then
    (decodeWord rest).bind fun valueSize r1 =>
    if valueSize = 0 then .ok ⟨valueType, []⟩ r1
    else .panic
  else .err .invalidOptionType

/-- Option values producible through the public constructors of
OptionValueBuf (and the constant OptionValue::BUTTON); per the spec these
constructors are what enforces well-formedness before encoding. -/
inductive OptionValueBuf.constructible : OptionValueBuf → Prop where
  | button : constructible ⟨TYPE_BUTTON, []⟩
  | from_bool (b : Bool) : constructible (OptionValueBuf.from_bool b)
  | from_i32 (w : Nat) : constructible (OptionValueBuf.from_i32 w)
  | from_i32_list (ws : List Nat) :
      constructible (OptionValueBuf.from_i32_list ws)
  | from_fixed (w : Nat) : constructible (OptionValueBuf.from_fixed w)
  | from_fixed_list (ws : List Nat) :
      constructible (OptionValueBuf.from_fixed_list ws)
  | from_cstring (c : List Nat) :
      constructible (OptionValueBuf.from_cstring c)
  | from_cstring_with_size (c : List Nat) (size : Nat)
      (h : c.length + 1 ≤ size) :
      constructible
        ⟨TYPE_STRING, (c ++ [0]) ++ List.replicate (size - (c.length + 1)) 0⟩

/-- ControlOptionRequestBuf from src/sane/net/rpc_05_control_option.rs,
reduced to its observable fields (handle, option, action, value type and
value bytes). -/
structure ControlOptionRequestBuf where
  handle : Nat
  option : Nat
  action : Nat
  value_type : Nat
  value : List Nat
  deriving DecidableEq, Repr

/-- ControlOptionRequestBuf::new. -/
def ControlOptionRequestBuf.new : ControlOptionRequestBuf :=
  ⟨0, 0, ACTION_GET_VALUE, TYPE_BOOL, []⟩

/-- ControlOptionRequestBuf::set_handle. -/
def ControlOptionRequestBuf.set_handle (b : ControlOptionRequestBuf)
    (h : Nat) : ControlOptionRequestBuf :=
  { b with handle := h }

/-- ControlOptionRequestBuf::set_option. -/
def ControlOptionRequestBuf.set_option (b : ControlOptionRequestBuf)
    (o : Nat) : ControlOptionRequestBuf :=
  { b with option := o }

/-- ControlOptionRequestBuf::set_action. -/
def ControlOptionRequestBuf.set_action (b : ControlOptionRequestBuf)
    (a : Nat) : ControlOptionRequestBuf :=
  { b with action := a }

/-- ControlOptionRequestBuf::set_value. -/
def ControlOptionRequestBuf.set_value (b : ControlOptionRequestBuf)
    (v : OptionValueBuf) : ControlOptionRequestBuf :=
  { b with value_type := v.value_type, value := v.bytes }

/-- ControlOptionRequest::encode from src/sane/net/rpc_05_control_option.rs
lines 107 to 121: procedure number 5, handle, option and action words, then
the option value unless the action is SET_AUTO. -/
def ControlOptionRequestBuf.encode {σ ε : Type} (sink : Sink σ ε)
    (r : ControlOptionRequestBuf) (st : σ) : EncResult ε σ :=
  (writeWord sink st PROC_CONTROL_OPTION).bind fun st1 =>
  (writeWord sink st1 r.handle).bind fun st2 =>
  (writeWord sink st2 r.option).bind fun st3 =>
  (writeWord sink st3 r.action).bind fun st4 =>
  if r.action ≠ ACTION_SET_AUTO then
    OptionValueBuf.encode sink ⟨r.value_type, r.value⟩ st4
  else .ok st4

/-- InitRequestBuf from src/sane/net/rpc_00_init.rs, reduced to its
observable fields. -/
structure InitRequestBuf where
  version_code : Nat
  username : List Nat
  deriving DecidableEq, Repr

/-- InitRequestBuf::new. -/
def InitRequestBuf.new : InitRequestBuf :=
  ⟨VERSION_CODE, []⟩

/-- InitRequestBuf::set_version_code. -/
def InitRequestBuf.set_version_code (b : InitRequestBuf) (vc : Nat) :
    InitRequestBuf :=
  { b with version_code := vc }

/-- InitRequestBuf::set_username. -/
def InitRequestBuf.set_username (b : InitRequestBuf) (u : List Nat) :
    InitRequestBuf :=
  { b with username := u }

/-- InitRequest::encode from src/sane/net/rpc_00_init.rs lines 76 to 85
(identical in src/sane/net.rs lines 225 to 234): procedure number 0, the
version code word, then the username string. -/
def InitRequestBuf.encode {σ ε : Type} (sink : Sink σ ε)
    (b : InitRequestBuf) (st : σ) : EncResult ε σ :=
  (writeWord sink st PROC_INIT).bind fun st1 =>
  (writeWord sink st1 b.version_code).bind fun st2 =>
  encodeCStr sink st2 b.username

/-- InitRequestBuf::decode from src/sane/net/rpc_00_init.rs lines 196 to 213
(identical in src/sane/net.rs lines 345 to 362): read and ignore the
procedure number, read the version code and username, and rebuild the buffer
through new and the setters. -/
def InitRequestBuf.decode (s : List Nat) : DecResult InitRequestBuf :=
  (decodeWord s).bind fun _procNo rest =>
  (decodeWord rest).bind fun vc rest1 =>
  (decodeCString rest1).bind fun username rest2 =>
    let buf := InitRequestBuf.new.set_version_code vc
    let buf := if username.isEmpty then buf else buf.set_username username
    .ok buf rest2

/-- DeviceBuf from src/sane/util.rs, reduced to its four observable string
fields; Device and DeviceRef expose the same fields. -/
structure DeviceBuf where
  name : List Nat
  vendor : List Nat
  model : List Nat
  kind : List Nat
  deriving DecidableEq, Repr

/-- DeviceBuf::new. -/
def DeviceBuf.new (name : List Nat) : DeviceBuf :=
  ⟨name, [], [], []⟩

/-- DeviceBuf::set_vendor. -/
def DeviceBuf.set_vendor (d : DeviceBuf) (v : List Nat) : DeviceBuf :=
  { d with vendor := v }

/-- DeviceBuf::set_model. -/
def DeviceBuf.set_model (d : DeviceBuf) (m : List Nat) : DeviceBuf :=
  { d with model := m }

/-- DeviceBuf::set_kind. -/
def DeviceBuf.set_kind (d : DeviceBuf) (k : List Nat) : DeviceBuf :=
  { d with kind := k }

/-- Device::encode from src/sane/net/rpc_01_get_devices.rs lines 354 to 364:
the four strings in order name, vendor, model, kind, each with the
length-prefixed CStr encoding. -/
def DeviceBuf.encode {σ ε : Type} (sink : Sink σ ε) (d : DeviceBuf)
    (st : σ) : EncResult ε σ :=
  (encodeCStr sink st d.name).bind fun st1 =>
  (encodeCStr sink st1 d.vendor).bind fun st2 =>
  (encodeCStr sink st2 d.model).bind fun st3 =>
  encodeCStr sink st3 d.kind

/-- DeviceBuf::decode from src/sane/net/rpc_01_get_devices.rs lines 386 to
397: four CString decodes populating name, vendor, model and kind through
new and the setters. -/
def DeviceBuf.decode (s : List Nat) : DecResult DeviceBuf :=
  (decodeCString s).bind fun devName r1 =>
  (decodeCString r1).bind fun vendor r2 =>
  (decodeCString r2).bind fun model r3 =>
  (decodeCString r3).bind fun kind r4 =>
  .ok ((((DeviceBuf.new devName).set_vendor vendor).set_model model).set_kind
    kind) r4

/-- First test device of the get_devices_reply conformance test in
src/sane/net_test.rs: name device-name, vendor device-vendor, model
device-model, kind device-type, as ASCII byte lists. -/
def testDevice1 : DeviceBuf :=
  (((DeviceBuf.new [100, 101, 118, 105, 99, 101, 45, 110, 97, 109, 101]
    ).set_vendor
      [100, 101, 118, 105, 99, 101, 45, 118, 101, 110, 100, 111, 114]
    ).set_model
      [100, 101, 118, 105, 99, 101, 45, 109, 111, 100, 101, 108]
    ).set_kind
      [100, 101, 118, 105, 99, 101, 45, 116, 121, 112, 101]

/-- Second test device of the same test: name device-name-2, the other
fields empty. -/
def testDevice2 : DeviceBuf :=
  DeviceBuf.new [100, 101, 118, 105, 99, 101, 45, 110, 97, 109, 101, 45, 50]

/-- GetDevicesReplyBuf from src/sane/net/rpc_01_get_devices.rs, reduced to
its observable fields (the status word and the device list). -/
structure GetDevicesReplyBuf where
  status : Nat
  devices : List DeviceBuf
  deriving DecidableEq, Repr

/-- Loop body of GetDevicesReply::encode: each device is written behind a
FALSE (word 0) nullable-pointer flag via write_ptr. -/
def encodeDevicesList {σ ε : Type} (sink : Sink σ ε)
    (ds : List DeviceBuf) (st : σ) : EncResult ε σ :=
  match ds with
  | [] => .ok st
  | d :: tail =>
    ((writeWord sink st 0).bind fun st1 =>
      DeviceBuf.encode sink d st1).bind fun st2 =>
    encodeDevicesList sink tail st2

/-- GetDevicesReply::encode from src/sane/net/rpc_01_get_devices.rs
lines 186 to 198: the status word, the length word devices.len() + 1 cast to
u32, each device behind a FALSE flag, then a TRUE (word 1) flag as the NULL
terminator. -/
def GetDevicesReplyBuf.encode {σ ε : Type} (sink : Sink σ ε)
    (r : GetDevicesReplyBuf) (st : σ) : EncResult ε σ :=
  (writeWord sink st r.status).bind fun st1 =>
  (writeWord sink st1 ((r.devices.length + 1) % 4294967296)).bind fun st2 =>
  (encodeDevicesList sink r.devices st2).bind fun st3 =>
  writeWord sink st3 1

/-- GetDevicesReply::encode as it appears in the stale duplicate
src/sane/net.rs lines 677 to 689, which writes devices.len() WITHOUT the
plus one as the length word; kept separately for comparison against the
repository test suite. -/
def GetDevicesReplyBuf.encodeNetRs {σ ε : Type} (sink : Sink σ ε)
    (r : GetDevicesReplyBuf) (st : σ) : EncResult ε σ :=
  (writeWord sink st r.status).bind fun st1 =>
  (writeWord sink st1 (r.devices.length % 4294967296)).bind fun st2 =>
  (encodeDevicesList sink r.devices st2).bind fun st3 =>
  writeWord sink st3 1

/-- PartialEq for GetDevicesReplyBuf from src/sane/net.rs lines 770 to 789
(same in src/sane/net/rpc_01_get_devices.rs lines 279 to 298): equality for
the reply buffer, and its cross-type equality with GetDevicesReply, compares
the device lists only. -/
def GetDevicesReplyBuf.eqImpl (a b : GetDevicesReplyBuf) : Bool :=
  decide (a.devices = b.devices)

/-- Wire form of one length-prefixed C string: size word counting the NUL,
the content, then the NUL. -/
def cstrWire (c : List Nat) : List Nat :=
  u32ToBytes (c.length + 1) ++ c ++ [0]

/-- Wire form of a device: its four strings in order. -/
def deviceWire (d : DeviceBuf) : List Nat :=
  cstrWire d.name ++ cstrWire d.vendor ++ cstrWire d.model ++ cstrWire d.kind

/-- Wire form of one nullable string as produced by write_ptr: a NULL is the
zero length word, a present string is its plain encoding. -/
def nullableCStrWire (e : Option (List Nat)) : List Nat :=
  match e with
  | none => u32ToBytes 0
  | some c => cstrWire c

/-- Loop of read_cstring_list from src/sane/net/rpc_04_get_option_descriptors.rs
lines 736 to 751 (identical in src/sane/net.rs lines 3474 to 3489): read
exactly len nullable strings, pushing only the non-NULL values. -/
def readNullableCStringsLoop (n : Nat) (acc : List (List Nat))
    (s : List Nat) : DecResult (List (List Nat)) :=
  match n with
  | 0 => .ok acc s
  | m + 1 =>
    (decodeOptionCString s).bind fun value rest =>
      match value with
      | some v => readNullableCStringsLoop m (acc ++ [v]) rest
      | none => readNullableCStringsLoop m acc rest

/-- read_cstring_list: read the length word (via new_vec_for_array, whose
length-zero shortcut and allocation check are observationally the same as
running the loop zero times), then the loop above. -/
def readCStringList (s : List Nat) : DecResult (List (List Nat)) :=
  (readSize s).bind fun len rest =>
  readNullableCStringsLoop len [] rest

/-- read_string_option from src/sane/net/rpc_04_get_option_descriptors.rs
lines 656 to 678 (identical in src/sane/net.rs lines 3393 to 3417), reduced
to the constraint it yields: none for CONSTRAINT_NONE, the decoded string
list for CONSTRAINT_STRING_LIST, InvalidConstraint otherwise. -/
def readStringOption (s : List Nat) :
    DecResult (Option (List (List Nat))) :=
  (decodeWord s).bind fun constraintType rest =>
  if constraintType = CONSTRAINT_NONE then .ok none rest
  else if constraintType = CONSTRAINT_STRING_LIST then
    (readCStringList rest).bind fun values r2 => .ok (some values) r2
  else .err (.invalidConstraint TYPE_STRING constraintType)

/-- SANE_CAP_SOFT_SELECT from src/sane/sane.rs. -/
def CAP_SOFT_SELECT : Nat := 1

/-- SANE_CAP_HARD_SELECT from src/sane/sane.rs. -/
def CAP_HARD_SELECT : Nat := 2

/-- SANE_CAP_SOFT_DETECT from src/sane/sane.rs. -/
def CAP_SOFT_DETECT : Nat := 4

/-- Capabilities from src/sane/util.rs: a typed wrapper over the capability
flag word (invariant: bits < 2^32). -/
structure Capabilities where
  bits : Nat
  deriving DecidableEq, Repr

/-- Capabilities::SOFT_SELECT from src/sane/util.rs lines 1387 to 1389: the
constant carries both the SOFT_SELECT and the SOFT_DETECT bit. -/
def Capabilities.SOFT_SELECT : Capabilities :=
  ⟨CAP_SOFT_SELECT ||| CAP_SOFT_DETECT⟩

/-- Capabilities::can_soft_select. -/
def Capabilities.can_soft_select (c : Capabilities) : Bool :=
  c.bits &&& CAP_SOFT_SELECT != 0

/-- Capabilities::can_soft_detect. -/
def Capabilities.can_soft_detect (c : Capabilities) : Bool :=
  c.bits &&& CAP_SOFT_DETECT != 0

/-- Capabilities::set: or the mask in, or and with its u32 complement. -/
def Capabilities.set (c : Capabilities) (mask : Nat) (b : Bool) :
    Capabilities :=
  if b then ⟨c.bits ||| mask⟩
  else ⟨c.bits &&& (4294967295 ^^^ mask)⟩

/-- Capabilities::set_soft_detect from src/sane/util.rs lines 1415 to 1419:
a no-op whenever the SOFT_SELECT bit is set. -/
def Capabilities.set_soft_detect (c : Capabilities) (softDetect : Bool) :
    Capabilities :=
  if c.can_soft_select then c
  else c.set CAP_SOFT_DETECT softDetect

/-- Status from src/sane/sane.rs: a transparent wrapper over the status
word. -/
structure Status where
  code : Nat
  deriving DecidableEq, Repr

/-- Modelled from the spec: Status::from_word is called by the generated
Decode impl (decode_encode_as_word in src/sane/net/io.rs) and by
src/sane/sane_test.rs, but its definition is not among the provided sources.
Per the spec, enumerations decode from a Word with unknown codes preserved,
so it is the transparent constructor, exactly like the in-source
ByteOrder::from_word and Capabilities::from_word. -/
def Status.from_word (w : Nat) : Status :=
  ⟨w⟩

/-- Modelled from the spec: Status::as_word, the transparent accessor
(counterpart of from_word above, matching ByteOrder::as_word). -/
def Status.as_word (s : Status) : Nat :=
  s.code

/-- Status decoding via decode_encode_as_word from src/sane/net/io.rs
lines 338 to 369: from_word applied to a decoded Word. -/
def Status.decode (s : List Nat) : DecResult Status :=
  (decodeWord s).bind fun w rest => .ok (Status.from_word w) rest

/-- Status encoding via decode_encode_as_word: as_word encoded as a Word. -/
def Status.encode {σ ε : Type} (sink : Sink σ ε) (v : Status) (st : σ) :
    EncResult ε σ :=
  writeWord sink st v.as_word

/-- STATUS_STR from src/sane/sane.rs lines 329 to 342. -/
def STATUS_STR : List String :=
  ["SANE_STATUS_GOOD", "SANE_STATUS_UNSUPPORTED", "SANE_STATUS_CANCELLED",
   "SANE_STATUS_DEVICE_BUSY", "SANE_STATUS_INVAL", "SANE_STATUS_EOF",
   "SANE_STATUS_JAMMED", "SANE_STATUS_NO_DOCS", "SANE_STATUS_COVER_OPEN",
   "SANE_STATUS_IO_ERROR", "SANE_STATUS_NO_MEM",
   "SANE_STATUS_ACCESS_DENIED"]

/-- Uppercase hexadecimal digit, as used by the Rust alternate-uppercase-hex
format. -/
def hexDigitChar (d : Nat) : Char :=
  ['0', '1', '2', '3', '4', '5', '6', '7', '8', '9',
   'A', 'B', 'C', 'D', 'E', 'F'].getD d '0'

/-- Digit expansion for the uppercase hex format; the fuel argument bounds
the digit count and 32 digits are ample for the 32-bit words formatted
here. -/
def hexDigitsAux : Nat → Nat → List Char
  | 0, _ => []
  | _ + 1, 0 => []
  | fuel + 1, n => hexDigitsAux fuel (n / 16) ++ [hexDigitChar (n % 16)]

/-- Rust formatting of a nonneg integer with the alternate uppercase hex
specifier: 0x followed by the digits, with 0 rendered as 0x0. -/
def hexUpperAlt (n : Nat) : String :=
  if n = 0 then "0x0" else "0x" ++ String.mk (hexDigitsAux 32 n)

/-- Debug formatting of Status from src/sane/sane.rs lines 382 to 389: a
known code prints its name from STATUS_STR, an unknown code prints
SANE_Status followed by the alternate uppercase hex of the word. -/
def Status.debugFmt (s : Status) : String :=
  if h : s.code < STATUS_STR.length then STATUS_STR.get ⟨s.code, h⟩
  else "SANE_Status(" ++ hexUpperAlt s.code ++ ")"

/-- Benign-error predicate for encoders: the run did not panic, and any
returned error is a SizeOverflow or an IoError (never InvalidOptionType). -/
def encodeErrorsBenign {ε σ : Type} (r : EncResult ε σ) : Prop :=
  r ≠ .panic ∧
  ∀ k, r = .err k →
    (∃ n, k = EncodeErrorKind.sizeOverflow n) ∨
    (∃ e, k = EncodeErrorKind.ioError e)

/-- Reassembling the four big-endian bytes of a word below 2^32 returns the
word. -/
theorem bytesToU32_u32ToBytes (w : Nat) (h : w < 4294967296) :
    bytesToU32 (w / 16777216 % 256) (w / 65536 % 256) (w / 256 % 256)
      (w % 256) = w := by
  unfold bytesToU32
  omega

/-- Word decoding inverts the big-endian byte expansion and leaves the rest
of the stream untouched. -/
theorem decodeWord_u32ToBytes (w : Nat) (rest : List Nat)
    (h : w < 4294967296) :
    decodeWord (u32ToBytes w ++ rest) = .ok w rest := by
  simp only [u32ToBytes, List.cons_append, List.nil_append, decodeWord,
    bytesToU32_u32ToBytes w h]

/-- The byte expansion only depends on the word value mod 2^32. -/
theorem u32ToBytes_mod (w : Nat) :
    u32ToBytes (w % 4294967296) = u32ToBytes w := by
  simp only [u32ToBytes, List.cons.injEq, and_true]
  omega

/-- On the 64-bit target, read_size returns any 32-bit word unchanged. -/
theorem readSize_u32ToBytes (w : Nat) (rest : List Nat)
    (h : w < 4294967296) :
    readSize (u32ToBytes w ++ rest) = .ok w rest := by
  have hle : w ≤ usizeMax := by unfold usizeMax; omega
  simp [readSize, decodeWord_u32ToBytes w rest h, DecResult.bind, hle]

/-- Reading exactly the length of a prefix returns that prefix. -/
theorem readVec_append (xs rest : List Nat) :
    readVec xs.length (xs ++ rest) = .ok xs rest := by
  unfold readVec
  rcases xs with _ | ⟨b, t⟩
  · simp
  · rw [if_neg (by simp), if_pos (by simp), List.take_left, List.drop_left]

/-- A zero-free list followed by a NUL has its first NUL exactly at the end
of the list. -/
theorem positionOfNul_append_nul (u : List Nat) (h : ∀ b ∈ u, b ≠ 0) :
    positionOfNul (u ++ [0]) = some u.length := by
  induction u with
  | nil => simp [positionOfNul]
  | cons b t ih =>
    have hb : b ≠ 0 := h b (by simp)
    have ht : ∀ x ∈ t, x ≠ 0 := fun x hx => h x (by simp [hx])
    simp [positionOfNul, hb, ih ht]

/-- A zero-free list has no NUL position. -/
theorem positionOfNul_eq_none (u : List Nat) (h : ∀ b ∈ u, b ≠ 0) :
    positionOfNul u = none := by
  induction u with
  | nil => rfl
  | cons b t ih =>
    have hb : b ≠ 0 := h b (by simp)
    have ht : ∀ x ∈ t, x ≠ 0 := fun x hx => h x (by simp [hx])
    simp [positionOfNul, hb, ih ht]

/-- Truncation at the first NUL recovers the zero-free content in front of
its terminator. -/
theorem cstringFromVecUntilNul_append_nul (u : List Nat)
    (h : ∀ b ∈ u, b ≠ 0) :
    cstringFromVecUntilNul (u ++ [0]) = some u := by
  simp [cstringFromVecUntilNul, positionOfNul_append_nul u h, List.take_left]

/-- Decoding an encoded nonempty-or-empty C string yields its content and
leaves the rest of the stream. -/
theorem decodeOptionCString_cstrWire (u rest : List Nat)
    (hz : ∀ b ∈ u, b ≠ 0) (hl : u.length + 1 < 4294967296) :
    decodeOptionCString (cstrWire u ++ rest) = .ok (some u) rest := by
  have h0 : cstrWire u ++ rest =
      u32ToBytes (u.length + 1) ++ ((u ++ [0]) ++ rest) := by
    simp [cstrWire]
  rw [h0]
  unfold decodeOptionCString
  rw [readSize_u32ToBytes (u.length + 1) ((u ++ [0]) ++ rest) hl]
  have hvec : readVec (u.length + 1) ((u ++ [0]) ++ rest) =
      .ok (u ++ [0]) rest := by
    rw [show u.length + 1 = (u ++ [0]).length from by simp, readVec_append]
  simp only [DecResult.bind]
  rw [if_neg (by omega), hvec]
  simp [cstringFromVecUntilNul_append_nul u hz]

/-- Decoding a NULL wire string yields none. -/
theorem decodeOptionCString_null (rest : List Nat) :
    decodeOptionCString (u32ToBytes 0 ++ rest) = .ok none rest := by
  simp [decodeOptionCString, readSize_u32ToBytes 0 rest (by omega),
    DecResult.bind]

/-- CString decoding of an encoded string returns its content. -/
theorem decodeCString_cstrWire (u rest : List Nat)
    (hz : ∀ b ∈ u, b ≠ 0) (hl : u.length + 1 < 4294967296) :
    decodeCString (cstrWire u ++ rest) = .ok u rest := by
  simp [decodeCString, decodeOptionCString_cstrWire u rest hz hl,
    DecResult.bind]

/-- With the list sink, writing a word appends its four bytes. -/
theorem writeWord_listSink (st : List Nat) (w : Nat) :
    writeWord listSink st w = .ok (st ++ u32ToBytes w) := rfl

/-- With the list sink, write_size of an encodable size appends the word. -/
theorem writeSize_listSink (st : List Nat) (n : Nat) (h : n < 4294967296) :
    writeSize listSink st n = .ok (st ++ u32ToBytes n) := by
  simp [writeSize, h, writeWord_listSink]

/-- With the list sink, encoding a C string appends its wire form. -/
theorem encodeCStr_listSink (st c : List Nat)
    (h : c.length + 1 < 4294967296) :
    encodeCStr listSink st c = .ok (st ++ cstrWire c) := by
  unfold encodeCStr
  rw [writeSize_listSink st (c.length + 1) h]
  simp [EncResult.bind, writeBytes, listSink, cstrWire, List.append_assoc]

/-- With the list sink, encoding a device appends its wire form. -/
theorem deviceEncode_listSink (st : List Nat) (d : DeviceBuf)
    (h1 : d.name.length + 1 < 4294967296)
    (h2 : d.vendor.length + 1 < 4294967296)
    (h3 : d.model.length + 1 < 4294967296)
    (h4 : d.kind.length + 1 < 4294967296) :
    DeviceBuf.encode listSink d st = .ok (st ++ deviceWire d) := by
  simp [DeviceBuf.encode, encodeCStr_listSink _ _ h1,
    encodeCStr_listSink _ _ h2, encodeCStr_listSink _ _ h3,
    encodeCStr_listSink _ _ h4, EncResult.bind, deviceWire,
    List.append_assoc]

/-- With the list sink, the device loop appends, for each device in order, a
FALSE flag word followed by the device wire form. -/
theorem encodeDevicesList_listSink (ds : List DeviceBuf) (st : List Nat)
    (h : ∀ d ∈ ds, d.name.length + 1 < 4294967296 ∧
      d.vendor.length + 1 < 4294967296 ∧
      d.model.length + 1 < 4294967296 ∧
      d.kind.length + 1 < 4294967296) :
    encodeDevicesList listSink ds st =
      .ok (st ++ ds.flatMap fun d => u32ToBytes 0 ++ deviceWire d) := by
  induction ds generalizing st with
  | nil => simp [encodeDevicesList]
  | cons d tail ih =>
    obtain ⟨h1, h2, h3, h4⟩ := h d (by simp)
    have htail : ∀ x ∈ tail, x.name.length + 1 < 4294967296 ∧
        x.vendor.length + 1 < 4294967296 ∧
        x.model.length + 1 < 4294967296 ∧
        x.kind.length + 1 < 4294967296 :=
      fun x hx => h x (List.mem_cons_of_mem d hx)
    unfold encodeDevicesList
    rw [writeWord_listSink]
    simp only [EncResult.bind]
    rw [deviceEncode_listSink _ d h1 h2 h3 h4]
    simp only [EncResult.bind]
    rw [ih _ htail]
    simp [List.append_assoc]

/-- Decoding the device wire form returns the device. -/
theorem deviceDecode_deviceWire (d : DeviceBuf) (rest : List Nat)
    (hz1 : ∀ b ∈ d.name, b ≠ 0) (hz2 : ∀ b ∈ d.vendor, b ≠ 0)
    (hz3 : ∀ b ∈ d.model, b ≠ 0) (hz4 : ∀ b ∈ d.kind, b ≠ 0)
    (h1 : d.name.length + 1 < 4294967296)
    (h2 : d.vendor.length + 1 < 4294967296)
    (h3 : d.model.length + 1 < 4294967296)
    (h4 : d.kind.length + 1 < 4294967296) :
    DeviceBuf.decode (deviceWire d ++ rest) = .ok d rest := by
  have hsplit : deviceWire d ++ rest = cstrWire d.name ++ (cstrWire d.vendor
      ++ (cstrWire d.model ++ (cstrWire d.kind ++ rest))) := by
    simp [deviceWire]
  unfold DeviceBuf.decode
  rw [hsplit, decodeCString_cstrWire _ _ hz1 h1]
  simp only [DecResult.bind]
  rw [decodeCString_cstrWire _ _ hz2 h2]
  simp only [DecResult.bind]
  rw [decodeCString_cstrWire _ _ hz3 h3]
  simp only [DecResult.bind]
  rw [decodeCString_cstrWire _ _ hz4 h4]
  simp [DecResult.bind, DeviceBuf.new, DeviceBuf.set_vendor,
    DeviceBuf.set_model, DeviceBuf.set_kind]

/-- An ok encoder outcome satisfies the benign-error predicate. -/
theorem encodeErrorsBenign_ok {ε σ : Type} (s : σ) :
    encodeErrorsBenign (EncResult.ok (ε := ε) s) := by
  refine ⟨by simp, fun k hk => by cases hk⟩

/-- Raw byte writes fail only with a wrapped IO error. -/
theorem writeBytes_benign {σ ε : Type} (sink : Sink σ ε) (st : σ)
    (bs : List Nat) : encodeErrorsBenign (writeBytes sink st bs) := by
  unfold writeBytes
  cases hw : sink.writeAll st bs with
  | ok s2 => exact encodeErrorsBenign_ok s2
  | error e =>
    refine ⟨by simp, fun k hk => Or.inr ⟨e, ?_⟩⟩
    injection hk with h
    exact h.symm

/-- Word writes fail only with a wrapped IO error. -/
theorem writeWord_benign {σ ε : Type} (sink : Sink σ ε) (st : σ) (w : Nat) :
    encodeErrorsBenign (writeWord sink st w) :=
  writeBytes_benign sink st (u32ToBytes w)

/-- The benign-error predicate is preserved by sequencing. -/
theorem EncResult.bind_benign {ε σ : Type} {r : EncResult ε σ}
    {f : σ → EncResult ε σ} (hr : encodeErrorsBenign r)
    (hf : ∀ s, encodeErrorsBenign (f s)) :
    encodeErrorsBenign (r.bind f) := by
  cases r with
  | ok s => exact hf s
  | err e => exact hr
  | panic => exact absurd rfl hr.1

/-- The common encode tail of OptionValue::encode never panics and fails
only with a wrapped IO error. -/
theorem encodeTail_benign {σ ε : Type} (sink : Sink σ ε)
    (v : OptionValueBuf) (valueSize valueCount : Option Nat) (st : σ) :
    encodeErrorsBenign (v.encodeTail sink valueSize valueCount st) := by
  unfold OptionValueBuf.encodeTail
  refine EncResult.bind_benign (writeWord_benign sink st v.value_type)
    fun st1 => EncResult.bind_benign ?_ fun st2 =>
      EncResult.bind_benign ?_ fun st3 => ?_
  · cases valueSize with
    | some n => exact writeWord_benign sink st1 n
    | none => exact encodeErrorsBenign_ok st1
  · cases valueCount with
    | some n => exact writeWord_benign sink st2 n
    | none => exact encodeErrorsBenign_ok st2
  · by_cases hb : 0 < v.bytes.length
    · rw [if_pos hb]
      exact writeBytes_benign sink st3 v.bytes
    · rw [if_neg hb]
      exact encodeErrorsBenign_ok st3

/-- The flat byte expansion of a word list has a length divisible by 4. -/
theorem flatMap_u32ToBytes_length (ws : List Nat) :
    (ws.flatMap u32ToBytes).length = 4 * ws.length := by
  induction ws with
  | nil => rfl
  | cons w t ih => simp [List.flatMap_cons, ih, u32ToBytes]; omega

/-- Encoding a constructible option value never panics and never returns
InvalidOptionType. -/
theorem optionValueEncode_benign {σ ε : Type} (sink : Sink σ ε)
    (v : OptionValueBuf) (st : σ) (h : v.constructible) :
    encodeErrorsBenign (v.encode sink st) := by
  cases h with
  | button =>
    unfold OptionValueBuf.encode
    norm_num [TYPE_BOOL, TYPE_INT, TYPE_FIXED, TYPE_STRING, TYPE_BUTTON]
    exact encodeTail_benign sink _ none none st
  | from_bool b =>
    unfold OptionValueBuf.encode OptionValueBuf.from_bool
    norm_num [TYPE_BOOL, u32ToBytes]
    exact encodeTail_benign sink _ (some 4) (some 1) st
  | from_i32 w =>
    unfold OptionValueBuf.encode OptionValueBuf.from_i32
    norm_num [TYPE_BOOL, TYPE_INT, TYPE_FIXED, u32ToBytes]
    exact encodeTail_benign sink _ _ _ st
  | from_i32_list ws =>
    have hmod : (ws.flatMap u32ToBytes).length % 4 = 0 := by
      rw [flatMap_u32ToBytes_length]
      omega
    unfold OptionValueBuf.encode OptionValueBuf.from_i32_list
    dsimp only [TYPE_BOOL, TYPE_INT, TYPE_FIXED]
    rw [if_neg (by omega), if_pos (Or.inl rfl), if_pos hmod]
    exact encodeTail_benign sink _ _ _ st
  | from_fixed w =>
    unfold OptionValueBuf.encode OptionValueBuf.from_fixed
    norm_num [TYPE_BOOL, TYPE_INT, TYPE_FIXED, u32ToBytes]
    exact encodeTail_benign sink _ _ _ st
  | from_fixed_list ws =>
    have hmod : (ws.flatMap u32ToBytes).length % 4 = 0 := by
      rw [flatMap_u32ToBytes_length]
      omega
    unfold OptionValueBuf.encode OptionValueBuf.from_fixed_list
    dsimp only [TYPE_BOOL, TYPE_INT, TYPE_FIXED]
    rw [if_neg (by omega), if_pos (Or.inr rfl), if_pos hmod]
    exact encodeTail_benign sink _ _ _ st
  | from_cstring c =>
    unfold OptionValueBuf.encode OptionValueBuf.from_cstring
    norm_num [TYPE_BOOL, TYPE_INT, TYPE_FIXED, TYPE_STRING]
    exact encodeTail_benign sink _ _ none st
  | from_cstring_with_size c size hsz =>
    unfold OptionValueBuf.encode
    norm_num [TYPE_BOOL, TYPE_INT, TYPE_FIXED, TYPE_STRING]
    exact encodeTail_benign sink _ _ none st

/-- C1: decoding the byte sequence produced by encoding a public-API Buf
value yields an equal Buf, shown for every InitRequestBuf (any version code
word and any NUL-free username that fits a size word) and for every
DeviceBuf (any four NUL-free strings that fit size words). -/
theorem buf_encode_decode_roundtrip (vc : Nat) (u : List Nat) (d : DeviceBuf)
    (hvc : vc < 4294967296) (hu : ∀ b ∈ u, b ≠ 0)
    (hul : u.length + 1 < 4294967296)
    (hz1 : ∀ b ∈ d.name, b ≠ 0) (hz2 : ∀ b ∈ d.vendor, b ≠ 0)
    (hz3 : ∀ b ∈ d.model, b ≠ 0) (hz4 : ∀ b ∈ d.kind, b ≠ 0)
    (h1 : d.name.length + 1 < 4294967296)
    (h2 : d.vendor.length + 1 < 4294967296)
    (h3 : d.model.length + 1 < 4294967296)
    (h4 : d.kind.length + 1 < 4294967296) :
    (∃ bytes, InitRequestBuf.encode listSink ⟨vc, u⟩ [] = .ok bytes ∧
      InitRequestBuf.decode bytes = .ok ⟨vc, u⟩ []) ∧
    (∃ bytes, DeviceBuf.encode listSink d [] = .ok bytes ∧
      DeviceBuf.decode bytes = .ok d []) := by
  constructor
  · refine ⟨u32ToBytes PROC_INIT ++ (u32ToBytes vc ++ (cstrWire u ++ [])),
      ?_, ?_⟩
    · unfold InitRequestBuf.encode
      rw [writeWord_listSink]
      simp only [EncResult.bind]
      rw [writeWord_listSink]
      simp only [EncResult.bind]
      rw [encodeCStr_listSink _ _ hul]
      simp [List.append_assoc]
    · unfold InitRequestBuf.decode
      rw [decodeWord_u32ToBytes PROC_INIT _ (by norm_num [PROC_INIT])]
      simp only [DecResult.bind]
      rw [decodeWord_u32ToBytes vc _ hvc]
      simp only [DecResult.bind]
      rw [decodeCString_cstrWire u [] hu hul]
      simp only [DecResult.bind]
      rcases u with _ | ⟨b, t⟩
      · simp [InitRequestBuf.new, InitRequestBuf.set_version_code]
      · simp [InitRequestBuf.new, InitRequestBuf.set_version_code,
          InitRequestBuf.set_username]
  · refine ⟨deviceWire d ++ [], ?_, ?_⟩
    · rw [deviceEncode_listSink [] d h1 h2 h3 h4]
      simp
    · exact deviceDecode_deviceWire d [] hz1 hz2 hz3 hz4 h1 h2 h3 h4

/-- Witness for C1 at the conformance-test inputs: the INIT request with
version code 0x11223344 and username aaa, and the first test device. -/
theorem buf_encode_decode_roundtrip_witness :
    (∃ bytes,
      InitRequestBuf.encode listSink ⟨0x11223344, [97, 97, 97]⟩ [] =
        .ok bytes ∧
      InitRequestBuf.decode bytes = .ok ⟨0x11223344, [97, 97, 97]⟩ []) ∧
    (∃ bytes, DeviceBuf.encode listSink testDevice1 [] = .ok bytes ∧
      DeviceBuf.decode bytes = .ok testDevice1 []) :=
  buf_encode_decode_roundtrip 0x11223344 [97, 97, 97] testDevice1
    (by decide) (by decide) (by decide) (by decide) (by decide) (by decide)
    (by decide) (by decide) (by decide) (by decide) (by decide)

/-- C2: encoding a GET_DEVICES reply writes the status word, then the length
word devices.len() + 1, then each device preceded by a FALSE (word 0)
nullable-pointer flag, terminated by a TRUE (word 1) flag in place of an
extra element. -/
theorem getDevicesReply_encode_len_plus_one (r : GetDevicesReplyBuf)
    (h : ∀ d ∈ r.devices, d.name.length + 1 < 4294967296 ∧
      d.vendor.length + 1 < 4294967296 ∧
      d.model.length + 1 < 4294967296 ∧
      d.kind.length + 1 < 4294967296) :
    GetDevicesReplyBuf.encode listSink r [] =
      .ok (u32ToBytes r.status ++ u32ToBytes (r.devices.length + 1) ++
        (r.devices.flatMap fun d => u32ToBytes 0 ++ deviceWire d) ++
        u32ToBytes 1) := by
  unfold GetDevicesReplyBuf.encode
  rw [writeWord_listSink]
  simp only [EncResult.bind]
  rw [writeWord_listSink]
  simp only [EncResult.bind]
  rw [encodeDevicesList_listSink _ _ h]
  simp only [EncResult.bind]
  rw [writeWord_listSink]
  simp [u32ToBytes_mod, List.append_assoc]

/-- Witness for C2 at the conformance-test reply: status ACCESS_DENIED with
the two test devices encodes with length word 3. -/
theorem getDevicesReply_encode_len_plus_one_witness :
    GetDevicesReplyBuf.encode listSink ⟨11, [testDevice1, testDevice2]⟩ [] =
      .ok (u32ToBytes 11 ++ u32ToBytes 3 ++
        ([testDevice1, testDevice2].flatMap fun d =>
          u32ToBytes 0 ++ deviceWire d) ++ u32ToBytes 1) :=
  getDevicesReply_encode_len_plus_one ⟨11, [testDevice1, testDevice2]⟩
    (by decide)

/-- Comparison theorem: the stale duplicate of GetDevicesReply::encode in
src/sane/net.rs writes devices.len() without the plus one as the length
word, contradicting the get_devices_reply test in src/sane/net_test.rs,
which expects length word 3 for two devices. -/
theorem getDevicesReply_encodeNetRs_omits_plus_one
    (r : GetDevicesReplyBuf)
    (h : ∀ d ∈ r.devices, d.name.length + 1 < 4294967296 ∧
      d.vendor.length + 1 < 4294967296 ∧
      d.model.length + 1 < 4294967296 ∧
      d.kind.length + 1 < 4294967296) :
    GetDevicesReplyBuf.encodeNetRs listSink r [] =
      .ok (u32ToBytes r.status ++ u32ToBytes r.devices.length ++
        (r.devices.flatMap fun d => u32ToBytes 0 ++ deviceWire d) ++
        u32ToBytes 1) := by
  unfold GetDevicesReplyBuf.encodeNetRs
  rw [writeWord_listSink]
  simp only [EncResult.bind]
  rw [writeWord_listSink]
  simp only [EncResult.bind]
  rw [encodeDevicesList_listSink _ _ h]
  simp only [EncResult.bind]
  rw [writeWord_listSink]
  simp [u32ToBytes_mod, List.append_assoc]

/-- C3: decoding an INT option value whose size word (8) differs from four
times its count word (1) panics on the in-source assert instead of returning
the InvalidOptionType decode error that the spec promises. -/
theorem optionValueDecode_int_size_mismatch_is_panic :
    OptionValueBuf.decode [0, 0, 0, 1, 0, 0, 0, 8, 0, 0, 0, 1] = .panic ∧
    OptionValueBuf.decode [0, 0, 0, 1, 0, 0, 0, 8, 0, 0, 0, 1] ≠
      .err .invalidOptionType := by
  exact ⟨rfl, by decide⟩

/-- C4: against every byte sink, encoding a CONTROL_OPTION request whose
value was built by the public OptionValueBuf constructors, or encoding such
an option value alone, never panics and returns no error kind other than
SizeOverflow or IoError. -/
theorem encode_errors_overflow_or_io_only {σ ε : Type} (sink : Sink σ ε)
    (r : ControlOptionRequestBuf) (st : σ)
    (h : OptionValueBuf.constructible ⟨r.value_type, r.value⟩) :
    encodeErrorsBenign (ControlOptionRequestBuf.encode sink r st) ∧
    encodeErrorsBenign
      (OptionValueBuf.encode sink ⟨r.value_type, r.value⟩ st) := by
  refine ⟨?_, optionValueEncode_benign sink _ st h⟩
  unfold ControlOptionRequestBuf.encode
  refine EncResult.bind_benign (writeWord_benign sink st _) fun st1 =>
    EncResult.bind_benign (writeWord_benign sink st1 _) fun st2 =>
    EncResult.bind_benign (writeWord_benign sink st2 _) fun st3 =>
    EncResult.bind_benign (writeWord_benign sink st3 _) fun st4 => ?_
  by_cases ha : r.action ≠ ACTION_SET_AUTO
  · rw [if_pos ha]
    exact optionValueEncode_benign sink _ st4 h
  · rw [if_neg ha]
    exact encodeErrorsBenign_ok st4

/-- Witness for C4: the SET_VALUE request of the conformance test, with its
INT value built by from_i32, against the list sink. -/
theorem encode_errors_overflow_or_io_only_witness :
    encodeErrorsBenign (ControlOptionRequestBuf.encode listSink
      ⟨0x11223344, 0x55555555, ACTION_SET_VALUE, TYPE_INT,
        u32ToBytes 0x66778899⟩ []) ∧
    encodeErrorsBenign (OptionValueBuf.encode listSink
      ⟨TYPE_INT, u32ToBytes 0x66778899⟩ []) :=
  encode_errors_overflow_or_io_only listSink
    ⟨0x11223344, 0x55555555, ACTION_SET_VALUE, TYPE_INT,
      u32ToBytes 0x66778899⟩ []
    (OptionValueBuf.constructible.from_i32 0x66778899)

/-- C5: the CONTROL_OPTION request with handle 0x11223344, option
0x55555555, action SET_VALUE and INT value 0x66778899 encodes to exactly the
spec bytes, and any request with action SET_AUTO encodes as the procedure,
handle, option and action words with the value omitted. -/
theorem controlOption_encode_bytes :
    ControlOptionRequestBuf.encode listSink
        ((((ControlOptionRequestBuf.new.set_handle 0x11223344).set_option
          0x55555555).set_action ACTION_SET_VALUE).set_value
          (OptionValueBuf.from_i32 0x66778899)) [] =
      .ok [0, 0, 0, 5, 0x11, 0x22, 0x33, 0x44, 0x55, 0x55, 0x55, 0x55,
        0, 0, 0, 1, 0, 0, 0, 1, 0, 0, 0, 4, 0, 0, 0, 1,
        0x66, 0x77, 0x88, 0x99] ∧
    ∀ (r : ControlOptionRequestBuf), r.action = ACTION_SET_AUTO →
      ControlOptionRequestBuf.encode listSink r [] =
        .ok (u32ToBytes PROC_CONTROL_OPTION ++ u32ToBytes r.handle ++
          u32ToBytes r.option ++ u32ToBytes ACTION_SET_AUTO) := by
  constructor
  · rfl
  · intro r ha
    unfold ControlOptionRequestBuf.encode
    rw [writeWord_listSink]
    simp only [EncResult.bind]
    rw [writeWord_listSink]
    simp only [EncResult.bind]
    rw [writeWord_listSink]
    simp only [EncResult.bind]
    rw [writeWord_listSink]
    simp only [EncResult.bind]
    rw [ha, if_neg (by simp)]
    simp [List.append_assoc]

/-- Witness for C5 at a concrete SET_AUTO request. -/
theorem controlOption_encode_bytes_witness :
    ControlOptionRequestBuf.encode listSink
        ⟨1, 2, ACTION_SET_AUTO, TYPE_BOOL, []⟩ [] =
      .ok (u32ToBytes PROC_CONTROL_OPTION ++ u32ToBytes 1 ++ u32ToBytes 2 ++
        u32ToBytes ACTION_SET_AUTO) :=
  controlOption_encode_bytes.2 ⟨1, 2, ACTION_SET_AUTO, TYPE_BOOL, []⟩ rfl

/-- C6: decoding a length-prefixed string truncates at the first NUL of the
payload (in particular the 6-byte payload abc NUL d NUL yields abc), while a
nonempty payload with no NUL fails with InvalidString. -/
theorem string_decode_truncates_and_rejects_missing_nul :
    (∀ (p rest : List Nat) (i : Nat), p.length < 4294967296 →
      positionOfNul p = some i →
      decodeOptionCString (u32ToBytes p.length ++ p ++ rest) =
        .ok (some (p.take i)) rest) ∧
    decodeCString [0, 0, 0, 6, 97, 98, 99, 0, 100, 0] =
      .ok [97, 98, 99] [] ∧
    (∀ (p rest : List Nat), p ≠ [] → p.length < 4294967296 →
      positionOfNul p = none →
      decodeOptionCString (u32ToBytes p.length ++ p ++ rest) =
        .err .invalidString) := by
  refine ⟨?_, by rfl, ?_⟩
  · intro p rest i hl hp
    have hne : p ≠ [] := by
      intro he
      rw [he] at hp
      cases hp
    unfold decodeOptionCString
    rw [List.append_assoc, readSize_u32ToBytes p.length (p ++ rest) hl]
    simp only [DecResult.bind]
    rw [if_neg (by simpa using hne), readVec_append]
    simp [cstringFromVecUntilNul, hp]
  · intro p rest hne hl hp
    unfold decodeOptionCString
    rw [List.append_assoc, readSize_u32ToBytes p.length (p ++ rest) hl]
    simp only [DecResult.bind]
    rw [if_neg (by simpa using hne), readVec_append]
    simp [cstringFromVecUntilNul, hp]

/-- Witness for C6: the truncation case at the spec payload and the
missing-NUL case at the one-byte payload 97. -/
theorem string_decode_truncates_witness :
    decodeOptionCString (u32ToBytes 6 ++ [97, 98, 99, 0, 100, 0] ++ []) =
      .ok (some [97, 98, 99]) [] ∧
    decodeOptionCString (u32ToBytes 1 ++ [97] ++ []) =
      .err .invalidString :=
  ⟨string_decode_truncates_and_rejects_missing_nul.1
      [97, 98, 99, 0, 100, 0] [] 3 (by decide) (by decide),
   string_decode_truncates_and_rejects_missing_nul.2.2
      [97] [] (by decide) (by decide) (by decide)⟩

/-- C7 counterexample: decoding a STRING_LIST constraint whose first size
word is 2, whose first entry is a NULL string and whose second entry is the
one-byte string 97, consumes the entry after the NULL and returns it,
instead of stopping at the NULL with nothing consumed past it. -/
theorem readStringOption_keeps_reading_past_null :
    readStringOption ([0, 0, 0, 3] ++ [0, 0, 0, 2] ++ [0, 0, 0, 0] ++
        [0, 0, 0, 2, 97, 0]) = .ok (some [[97]]) [] ∧
    readStringOption ([0, 0, 0, 3] ++ [0, 0, 0, 2] ++ [0, 0, 0, 0] ++
        [0, 0, 0, 2, 97, 0]) ≠ .ok (some []) [0, 0, 0, 2, 97, 0] := by
  exact ⟨rfl, by decide⟩

/-- The read_cstring_list loop consumes one nullable string per counted
entry, keeping the non-NULL values in order. -/
theorem readNullableCStringsLoop_wire (entries : List (Option (List Nat)))
    (acc : List (List Nat)) (rest : List Nat)
    (h : ∀ s ∈ entries.filterMap id, (∀ b ∈ s, b ≠ 0) ∧
      s.length + 1 < 4294967296) :
    readNullableCStringsLoop entries.length acc
        (entries.flatMap nullableCStrWire ++ rest) =
      .ok (acc ++ entries.filterMap id) rest := by
  induction entries generalizing acc with
  | nil => simp [readNullableCStringsLoop]
  | cons e tail ih =>
    cases e with
    | none =>
      have htail : ∀ s ∈ tail.filterMap id, (∀ b ∈ s, b ≠ 0) ∧
          s.length + 1 < 4294967296 := by
        intro s hs
        exact h s (by simpa using hs)
      have hstream : (none :: tail).flatMap nullableCStrWire ++ rest =
          u32ToBytes 0 ++ (tail.flatMap nullableCStrWire ++ rest) := by
        simp [nullableCStrWire]
      rw [List.length_cons, hstream]
      simp only [readNullableCStringsLoop]
      rw [decodeOptionCString_null]
      simp only [DecResult.bind]
      rw [ih acc htail]
      simp
    | some s =>
      have hs : (∀ b ∈ s, b ≠ 0) ∧ s.length + 1 < 4294967296 :=
        h s (by simp)
      have htail : ∀ x ∈ tail.filterMap id, (∀ b ∈ x, b ≠ 0) ∧
          x.length + 1 < 4294967296 := by
        intro x hx
        refine h x ?_
        simp [List.filterMap_cons, hx]
      have hstream : (some s :: tail).flatMap nullableCStrWire ++ rest =
          cstrWire s ++ (tail.flatMap nullableCStrWire ++ rest) := by
        simp [nullableCStrWire]
      rw [List.length_cons, hstream]
      simp only [readNullableCStringsLoop]
      rw [decodeOptionCString_cstrWire s _ hs.1 hs.2]
      simp only [DecResult.bind]
      rw [ih (acc ++ [s]) htail]
      simp

/-- C7 amended: the STRING_LIST decoder reads the first size word and then
consumes exactly that many nullable strings, dropping the NULL entries from
the result, rather than stopping at the first NULL. -/
theorem readStringOption_consumes_declared_count
    (entries : List (Option (List Nat))) (rest : List Nat)
    (hlen : entries.length < 4294967296)
    (h : ∀ s ∈ entries.filterMap id, (∀ b ∈ s, b ≠ 0) ∧
      s.length + 1 < 4294967296) :
    readStringOption (u32ToBytes CONSTRAINT_STRING_LIST ++
        u32ToBytes entries.length ++ entries.flatMap nullableCStrWire ++
        rest) =
      .ok (some (entries.filterMap id)) rest := by
  have hgrp : u32ToBytes CONSTRAINT_STRING_LIST ++
      u32ToBytes entries.length ++ entries.flatMap nullableCStrWire ++
      rest = u32ToBytes CONSTRAINT_STRING_LIST ++
        (u32ToBytes entries.length ++
          (entries.flatMap nullableCStrWire ++ rest)) := by
    simp
  unfold readStringOption
  rw [hgrp, decodeWord_u32ToBytes CONSTRAINT_STRING_LIST _
    (by norm_num [CONSTRAINT_STRING_LIST])]
  simp only [DecResult.bind]
  rw [if_neg (by norm_num [CONSTRAINT_NONE, CONSTRAINT_STRING_LIST]),
    if_pos trivial]
  unfold readCStringList
  rw [readSize_u32ToBytes entries.length _ hlen]
  simp only [DecResult.bind]
  rw [readNullableCStringsLoop_wire entries [] rest h]
  simp

/-- Witness for C7 amended: one string then the NULL terminator, declared
count 2. -/
theorem readStringOption_consumes_declared_count_witness :
    readStringOption (u32ToBytes CONSTRAINT_STRING_LIST ++ u32ToBytes 2 ++
        ([some [97], none] : List (Option (List Nat))).flatMap
          nullableCStrWire ++ []) =
      .ok (some [[97]]) [] :=
  readStringOption_consumes_declared_count [some [97], none] []
    (by decide) (by decide)

/-- C8: the word 0x12345678 decodes as a Status, re-encodes to the same four
bytes, and debug-formats as SANE_Status followed by its hex value. -/
theorem status_unknown_code_roundtrip :
    Status.decode [0x12, 0x34, 0x56, 0x78] =
      .ok (Status.from_word 0x12345678) [] ∧
    Status.encode listSink (Status.from_word 0x12345678) [] =
      .ok [0x12, 0x34, 0x56, 0x78] ∧
    Status.debugFmt (Status.from_word 0x12345678) =
      "SANE_Status(0x12345678)" := by
  exact ⟨rfl, rfl, rfl⟩

/-- C9: when the SOFT_SELECT capability bit is set, set_soft_detect false is
a no-op, and the SOFT_SELECT constant itself carries the SOFT_DETECT bit. -/
theorem capabilities_soft_select_locks_soft_detect (c : Capabilities)
    (h : c.can_soft_select = true) :
    c.set_soft_detect false = c ∧
    Capabilities.SOFT_SELECT.can_soft_detect = true := by
  refine ⟨?_, by decide⟩
  unfold Capabilities.set_soft_detect
  rw [if_pos h]

/-- Witness for C9 at the SOFT_SELECT constant itself. -/
theorem capabilities_soft_select_locks_soft_detect_witness :
    Capabilities.SOFT_SELECT.set_soft_detect false =
      Capabilities.SOFT_SELECT ∧
    Capabilities.SOFT_SELECT.can_soft_detect = true :=
  capabilities_soft_select_locks_soft_detect Capabilities.SOFT_SELECT
    (by decide)

/-- C10: equality on GET_DEVICES reply buffers compares only the device
lists, so two replies with equal device lists and different status words
compare equal. -/
theorem getDevicesReplyBuf_eq_ignores_status (s1 s2 : Nat)
    (ds : List DeviceBuf) (_h : s1 ≠ s2) :
    GetDevicesReplyBuf.eqImpl ⟨s1, ds⟩ ⟨s2, ds⟩ = true := by
  simp [GetDevicesReplyBuf.eqImpl]

/-- Witness for C10: status GOOD versus status ACCESS_DENIED over the same
one-device list. -/
theorem getDevicesReplyBuf_eq_ignores_status_witness :
    GetDevicesReplyBuf.eqImpl ⟨0, [testDevice1]⟩ ⟨11, [testDevice1]⟩ =
      true :=
  getDevicesReplyBuf_eq_ignores_status 0 11 [testDevice1] (by decide)

end SaneNet
